import Mathlib

/-!
Shallow embedding of the form-flow engine of nationalarchives/ds-forms
(app/forms/models.py) and theorems about its completion evaluator,
redirect resolution, completion handling, session reset and page lookup.

Modelling conventions:
* Python dicts become association lists; lookups return the first binding,
  which matches dict semantics because keys are unique.
* The Flask session dict is split by its key families into a record: the
  page-id keyed answer entries, the config_hash slot, the
  completion_results list and the altcha_<id> flags.  session.clear()
  empties every field.
* Fallible code returns Except values carrying the raised exception
  message; distinct Python exception classes become distinct constructors
  where a claim depends on the distinction.
* Python recursion depth is modelled by a fuel argument (Python itself
  raises RecursionError at its recursion limit); exhausted fuel maps to an
  error value, and every theorem below is evaluated with ample fuel.
* External collaborators (wtforms validation, the altcha verifier, result
  handler I/O) are modelled as data: a validation function bound to a
  page, an outcome field on a request, a behaviour field on a handler
  specification, exactly as the code consumes them through their narrow
  interfaces.
-/

namespace DsForms

/-- Stored form data for one page: a string-keyed mapping (a Python dict),
modelled as an association list.  Values the claims depend on are strings. -/
abbrev AnswerMap := List (String × String)

/-- Python dict.get: the first binding for the key, if any. -/
def getAnswer (m : AnswerMap) (k : String) : Option String :=
  (m.find? (fun kv => kv.1 == k)).map (fun kv => kv.2)

/-- Mirror of ResultHandlerResult (models.py lines 28-31): one entry per
configured output handler, holding the handler type tag, its success flag
and an opaque result payload. -/
structure ResultHandlerResult where
  handlerType : String
  success : Bool
  result : AnswerMap

/-- The Flask session dict, split by key family: page-id keyed answers,
the config_hash slot, the completion_results list, and the per-page
altcha_<id> verification flags. -/
structure Session where
  answers : List (String × AnswerMap)
  config_hash : Option String
  completion_results : List ResultHandlerResult
  altcha_flags : List (String × Bool)

/-- A fresh (or fully cleared) session. -/
def Session.empty : Session :=
  ⟨[], none, [], []⟩

/-- FormPage.get_saved_form_data (models.py lines 556-560):
session[self.id] if self.id in session else an empty dict. -/
def getSavedFormData (s : Session) (id : String) : AnswerMap :=
  match s.answers.find? (fun kv => kv.1 == id) with
  | some kv => kv.2
  | none => []

/-- Read the per-page altcha_<id> session flag, if present. -/
def getAltchaFlag (s : Session) (id : String) : Option Bool :=
  (s.altcha_flags.find? (fun kv => kv.1 == id)).map (fun kv => kv.2)

/-- Write the per-page altcha_<id> session flag. -/
def setAltchaFlag (s : Session) (id : String) (b : Bool) : Session :=
  { s with altcha_flags := (id, b) :: s.altcha_flags.filter (fun kv => kv.1 != id) }

/-- Mirror of FormPage (models.py lines 415-475), restricted to the fields
the completion evaluator reads.  Pages reference their required pages
directly, as the Python objects do; the configured graph is a DAG, so the
back-references unfold to this tree type.
Fields, in order: id; form (truthiness of the bound live form instance,
read by the deep-check guard); formClass (the bound validation schema: an
external object exposing validate on stored data, modelled as a Boolean
function); altcha; requires_completion_of; requires_completion_of_any;
requires_completion_of_any_fallback; requires_responses. -/
inductive Page where
  | mk
      (id : String)
      (form : Bool)
      (formClass : Option (AnswerMap → Bool))
      (altcha : Bool)
      (requires_completion_of : List Page)
      (requires_completion_of_any : List Page)
      (requires_completion_of_any_fallback : Option Page)
      (requires_responses : List (Page × String × String))

/-- Page id accessor. -/
def Page.id : Page → String
  | .mk v _ _ _ _ _ _ _ => v

/-- Truthiness of the bound live form instance (FormPage.form). -/
def Page.form : Page → Bool
  | .mk _ v _ _ _ _ _ _ => v

/-- The bound validation schema (FormPage.form_class), as the external
validate function it exposes on stored data. -/
def Page.formClass : Page → Option (AnswerMap → Bool)
  | .mk _ _ v _ _ _ _ _ => v

/-- The altcha (CAPTCHA) flag. -/
def Page.altcha : Page → Bool
  | .mk _ _ _ v _ _ _ _ => v

/-- AND-semantics prerequisite list. -/
def Page.requires_completion_of : Page → List Page
  | .mk _ _ _ _ v _ _ _ => v

/-- OR-semantics prerequisite list. -/
def Page.requires_completion_of_any : Page → List Page
  | .mk _ _ _ _ _ v _ _ => v

/-- Fallback page for the OR-semantics prerequisite list. -/
def Page.requires_completion_of_any_fallback : Page → Option Page
  | .mk _ _ _ _ _ _ v _ => v

/-- Required (page, key, expected value) response triples. -/
def Page.requires_responses : Page → List (Page × String × String)
  | .mk _ _ _ _ _ _ _ v => v

/-- The parts of the inbound HTTP request that FormPage.altcha_verified
reads: the method, the submitted altcha payload (empty when absent) and
the outcome of the external verify_solution call on that payload (none
models verify_solution raising). -/
structure RequestCtx where
  is_post : Bool
  altcha_payload : String
  verify_outcome : Option Bool

/-- The application cache as read by altcha_verified: the list of
previously solved altcha payloads. -/
structure AppCache where
  solved_altchas : List String

/-- Mirror of FormPage.altcha_verified (models.py lines 569-605).
Returns the verdict together with the updated session and cache.
On a page without the altcha flag the answer is True.  On a non-POST
request the answer is the stored altcha_<id> session flag, taken as True
when absent.  On a POST the payload is checked (missing payload, replayed
payload and a raising verifier all store and return False) and the
verifier verdict is stored in the session flag; a verified payload is
appended to the solved list. -/
def altcha_verified (req : RequestCtx) (c : AppCache) (s : Session)
    (id : String) (altchaFlag : Bool) : Bool × Session × AppCache :=
  if altchaFlag = false then (true, s, c)
  else if req.is_post = false then ((getAltchaFlag s id).getD true, s, c)
  else if req.altcha_payload == "" then (false, setAltchaFlag s id false, c)
  else if c.solved_altchas.contains req.altcha_payload then
    (false, setAltchaFlag s id false, c)
  else
    match req.verify_outcome with
    | none => (false, setAltchaFlag s id false, c)
    | some v =>
      (v, setAltchaFlag s id v,
        if v then { c with solved_altchas := c.solved_altchas ++ [req.altcha_payload] }
        else c)

/-- Mirror of FormPage.is_complete with temporary_validation=True
(models.py lines 607-625): when a form class is bound, a temporary form is
built from the saved data and validated, and the verdict is conjoined
(short-circuiting, as the Python and does) with altcha_verified; a page
with no bound form class is trivially complete. -/
def is_complete_temporary (req : RequestCtx) (c : AppCache) (s : Session)
    (p : Page) : Bool × Session × AppCache :=
  match p.formClass with
  | some validate =>
    if validate (getSavedFormData s p.id) then altcha_verified req c s p.id p.altcha
    else (false, s, c)
  | none => (true, s, c)

/-- A request context for a non-POST (rendering) request, on which
altcha_verified is a pure session read. -/
def reqGet : RequestCtx :=
  ⟨false, "", none⟩

/-- The shallow completion verdict used by the completion evaluator:
is_complete(temporary_validation=True) evaluated on a non-POST request,
where it reads but never writes the session, so the evaluator stays pure
(spec section 4.2 requires deep checks to be side-effect free). -/
def shallowComplete (s : Session) (p : Page) : Bool :=
  (is_complete_temporary reqGet ⟨[]⟩ s p).1

/-- First failure over the AND-semantics list (models.py lines 235-238):
depth-first, left to right, returning the first non-None deep check. -/
def firstFailureWith (dc : Page → Except String (Option Page)) :
    List Page → Except String (Option Page)
  | [] => .ok none
  | q :: rest =>
    match dc q with
    | .error e => .error e
    | .ok (some f) => .ok (some f)
    | .ok none => firstFailureWith dc rest

/-- Last failure over the shallow-complete OR-candidates (models.py lines
252-256): every candidate is deep checked and the last failing one
overwrites the accumulator. -/
def lastFailureWith (dc : Page → Except String (Option Page)) :
    List Page → Option Page → Except String (Option Page)
  | [], acc => .ok acc
  | q :: rest, acc =>
    match dc q with
    | .error e => .error e
    | .ok (some f) => lastFailureWith dc rest (some f)
    | .ok none => lastFailureWith dc rest acc

/-- The requires_responses loop (models.py lines 260-269): for each
(page, key, expected) triple in order, a stored answer differing from the
expected value (a missing key included) makes that page the failing page
immediately; otherwise the page is deep checked and a failure propagates. -/
def respCheckWith (dc : Page → Except String (Option Page)) (s : Session) :
    List (Page × String × String) → Except String (Option Page)
  | [] => .ok none
  | (q, key, expected) :: rest =>
    if getAnswer (getSavedFormData s q.id) key == some expected then
      match dc q with
      | .error e => .error e
      | .ok (some f) => .ok (some f)
      | .ok none => respCheckWith dc s rest
    else
      .ok (some q)

/-- Mirror of deep_completion_check (models.py lines 229-271), with fuel
standing in for the Python recursion limit.  Statement order follows the
source: the own-form guard; the requires_completion_of loop (first failure
returns); the shallow scan of requires_completion_of_any with the
fallback-or-self answer when the OR-set is non-empty and nothing in it is
shallow-complete; the deep scan of the shallow-complete OR-candidates
keeping the last failure; then the guard that returns
failed_page_any_required_page when it is None — so the function answers
None here whenever no OR-candidate failure was recorded — and otherwise
falls through to the requires_responses loop, after which the recorded
OR-candidate failure is dropped and None is returned. -/
def deepCheckF : Nat → Session → Page → Except String (Option Page)
  | 0, _, _ => .error "maximum recursion depth exceeded"
  | fuel + 1, s, p =>
    if p.form && !(shallowComplete s p) then .ok (some p)
    else
      match firstFailureWith (deepCheckF fuel s) p.requires_completion_of with
      | .error e => .error e
      | .ok (some f) => .ok (some f)
      | .ok none =>
        let anyComplete :=
          p.requires_completion_of_any.filter (fun q => shallowComplete s q)
        if p.requires_completion_of_any.length != 0 && anyComplete.length == 0 then
          .ok (some (p.requires_completion_of_any_fallback.getD p))
        else
          match lastFailureWith (deepCheckF fuel s) anyComplete none with
          | .error e => .error e
          | .ok none => .ok none
          | .ok (some _) => respCheckWith (deepCheckF fuel s) s p.requires_responses

/-- deep_completion_check run with the default Python recursion limit. -/
def deepCompletionCheck (s : Session) (p : Page) : Except String (Option Page) :=
  deepCheckF 1000 s p

/-- Behaviour of one configured output handler when the dispatch loop in
handle_completion runs it: the external object can raise during
construction or process (before any send), raise during send, or have
send return a success flag; the payload is what its result method then
yields. -/
inductive HandlerBehavior where
  | initRaises
  | processRaises (resultSoFar : AnswerMap)
  | sendRaises (resultSoFar : AnswerMap)
  | sendReturns (ok : Bool) (payload : AnswerMap)

/-- One entry of FormFlow.result_handlers_config: the type tag, whether
the details mapping is non-empty, and the external behaviour of the
handler it names. -/
structure ResultHandlerSpec where
  handlerType : String
  hasDetails : Bool
  behavior : HandlerBehavior

/-- The fixed handler registry keys (models.py lines 330-335). -/
def handlerClasses : List String :=
  ["email", "postgres", "mongodb", "api"]

/-- Run one handler inside the try block of handle_completion (models.py
lines 350-384): any raise is recorded as a success := false entry (with
the handler's result when it was constructed, else an empty dict) and
never propagates; otherwise the entry records what send returned.  The
second component counts how many times the handler's send method was
invoked (0 or 1). -/
def runResultHandler (h : ResultHandlerSpec) : ResultHandlerResult × Nat :=
  match h.behavior with
  | .initRaises => (⟨h.handlerType, false, []⟩, 0)
  | .processRaises r => (⟨h.handlerType, false, r⟩, 0)
  | .sendRaises r => (⟨h.handlerType, false, r⟩, 1)
  | .sendReturns ok payload => (⟨h.handlerType, ok, payload⟩, 1)

/-- The dispatch loop of handle_completion (models.py lines 339-384): an
unregistered type tag or empty details raises a ValueError (checked per
handler, in order, before that handler runs); otherwise the per-handler
results are collected in order, together with the total number of send
invocations. -/
def runResultHandlers : List ResultHandlerSpec → Except String (List ResultHandlerResult × Nat)
  | [] => .ok ([], 0)
  | h :: rest =>
    if handlerClasses.contains h.handlerType = false then
      .error "Unsupported result handler type"
    else if h.hasDetails = false then
      .error "Result handler details are not set for this flow"
    else
      match runResultHandlers rest with
      | .error e => .error e
      | .ok (entries, n) =>
        .ok ((runResultHandler h).1 :: entries, (runResultHandler h).2 + n)

/-- The guard around the dispatch loop: a missing or empty
result_handlers_config skips the loop, leaving an empty result list. -/
def runResultHandlersOpt :
    Option (List ResultHandlerSpec) → Except String (List ResultHandlerResult × Nat)
  | none => .ok ([], 0)
  | some l => runResultHandlers l

/-- Mirror of FormFlow (models.py lines 34-55 and 219-227), restricted to
the fields the claims read.  The earliest_incomplete_page field models the
memo attribute set by get_earliest_incomplete_page: none when the
attribute was never assigned. -/
structure FormFlow where
  slug : String
  pages : List (String × Page)
  starting_page_id : String
  final_page_id : String
  metadata : AnswerMap
  result_handlers_config : Option (List ResultHandlerSpec)
  earliest_incomplete_page : Option Page

/-- Direct lookup in the page mapping (the id in self.pages test). -/
def rawLookup (f : FormFlow) (id : String) : Option Page :=
  (f.pages.find? (fun kv => kv.1 == id)).map (fun kv => kv.2)

/-- The two exception classes get_page_by_id can raise: ValueError for an
invalid argument, KeyError for an unresolved id. -/
inductive PageLookupError where
  | valueError (msg : String)
  | keyError (msg : String)

/-- Mirror of FormFlow.get_starting_page (models.py lines 170-179): a
ValueError when the starting page id is unset, the page when the id
resolves in the mapping, and the KeyError of the inner lookup re-raised as
a ValueError otherwise.  The inner get_page_by_id call is modelled by the
direct mapping lookup, which coincides with the source except when the
starting page id is itself one of the reserved alias ids while absent from
the mapping, where the source recurses without bound. -/
def get_starting_page (f : FormFlow) : Except PageLookupError Page :=
  if f.starting_page_id = "" then
    .error (.valueError "Starting page is not set for this flow")
  else
    match rawLookup f f.starting_page_id with
    | some p => .ok p
    | none => .error (.valueError "Starting page is not found in this flow")

/-- Mirror of FormFlow.get_final_page (models.py lines 193-202), modelled
like get_starting_page. -/
def get_final_page (f : FormFlow) : Except PageLookupError Page :=
  if f.final_page_id = "" then
    .error (.valueError "Final page is not set for this flow")
  else
    match rawLookup f f.final_page_id with
    | some p => .ok p
    | none => .error (.valueError "Final page is not found in this flow")

/-- Mirror of FormFlow.get_page_by_id (models.py lines 150-162): an empty
id raises ValueError; the concrete page mapping is consulted next; then
the reserved aliases startingPage and finalPage resolve to the configured
pages; any other id raises KeyError. -/
def get_page_by_id (f : FormFlow) (id : String) : Except PageLookupError Page :=
  if id = "" then .error (.valueError "Page id must be provided")
  else
    match rawLookup f id with
    | some p => .ok p
    | none =>
      if id = "startingPage" then get_starting_page f
      else if id = "finalPage" then get_final_page f
      else .error (.keyError "Page with id not found in flow")

/-- Message carried by a page lookup exception. -/
def pageErrMsg : PageLookupError → String
  | .valueError m => m
  | .keyError m => m

/-- Mirror of FormFlow.get_earliest_incomplete_page (models.py lines
219-279): the memo attribute short-circuits when present; otherwise the
deep completion check runs from the final page, and a failure is memoised
on the flow object before being returned. -/
def get_earliest_incomplete_page (s : Session) (f : FormFlow) :
    Except String (Option Page × FormFlow) :=
  match f.earliest_incomplete_page with
  | some p => .ok (some p, f)
  | none =>
    match get_final_page f with
    | .error e => .error (pageErrMsg e)
    | .ok fp =>
      match deepCompletionCheck s fp with
      | .error e => .error e
      | .ok (some failed) =>
        .ok (some failed, { f with earliest_incomplete_page := some failed })
      | .ok none => .ok (none, f)

/-- Mirror of FormFlow.has_complete_path (models.py lines 213-217):
get_earliest_incomplete_page() is None. -/
def has_complete_path (s : Session) (f : FormFlow) :
    Except String (Bool × FormFlow) :=
  match get_earliest_incomplete_page s f with
  | .error e => .error e
  | .ok (o, f2) => .ok (o.isNone, f2)

/-- Mirror of FormFlow.get_completion_results (models.py lines 302-306). -/
def get_completion_results (s : Session) : List ResultHandlerResult :=
  s.completion_results

/-- Mirror of FormFlow.is_completion_handled (models.py lines 292-300):
all recorded results succeeded, when any are recorded; False otherwise. -/
def is_completion_handled (s : Session) : Bool :=
  if (get_completion_results s).length != 0 then
    (get_completion_results s).all (fun r => r.success)
  else false

/-- Mirror of FormFlow.handle_completion (models.py lines 317-395).
Returns the success flag, the updated session and flow, and the total
number of handler send invocations performed by this call; a raise is an
error value.  The already-handled guard returns True first; then an
incomplete path raises; then the dispatch loop runs, the per-handler
results are stored in the session, and the conjunction of the recorded
success flags is returned. -/
def handle_completion (s : Session) (f : FormFlow) :
    Except String (Bool × Session × FormFlow × Nat) :=
  if is_completion_handled s then .ok (true, s, f, 0)
  else
    match has_complete_path s f with
    | .error e => .error e
    | .ok (complete, f2) =>
      if complete = false then .error "Flow does not have a complete path"
      else
        match runResultHandlersOpt f2.result_handlers_config with
        | .error e => .error e
        | .ok (results, n) =>
          .ok (results.all (fun r => r.success),
            { s with completion_results := results }, f2, n)

/-- Mirror of FormFlow.reset (models.py lines 285-290): session.clear()
wipes the whole shared namespace, every key family included. -/
def reset (_s : Session) : Session :=
  Session.empty

/-- The session effect of FormFlow.__init__ (models.py lines 40-55): when
the stored config_hash (an absent slot reading as the empty string)
differs from the supplied fingerprint, the whole session is reset and the
new fingerprint is stored. -/
def flowInitSession (config_hash : String) (s : Session) : Session :=
  if (s.config_hash.getD "") != config_hash then
    { reset s with config_hash := some config_hash }
  else s

/-- Mirror of a when_complete rule (models.py lines 398-412 and 525-547):
an optional destination page, a literal url and a flask method name (empty
when unset), an optional single key-equality guard and an optional
arbitrary predicate on the submitted answers. -/
structure CompletionRule where
  page : Option Page
  url : String
  flask_method : String
  whenGuard : Option (String × String)
  condition : Option (AnswerMap → Bool)

/-- The rule-match test of validate_and_redirect (models.py lines
733-740): a rule with neither guard nor predicate always matches;
otherwise the when pair matches when the submitted answer under its key
equals its value, and failing that a present predicate is consulted. -/
def ruleMatches (form_data : AnswerMap) (r : CompletionRule) : Bool :=
  (r.whenGuard.isNone && r.condition.isNone)
  || (match r.whenGuard with
      | some kv => getAnswer form_data kv.1 == some kv.2
      | none => false)
  || (match r.condition with
      | some c => c form_data
      | none => false)

/-- The three redirect targets a matched rule can resolve to. -/
inductive Redirect where
  | toPage (p : Page)
  | toFlaskMethod (m : String)
  | toUrl (u : String)

/-- Destination resolution inside a matched rule (models.py lines
744-760): a set page wins, then a non-empty flask method, then a
non-empty url; a rule with none of them set falls through to the next
rule (redirect_when_complete refuses to build such a rule). -/
def ruleDestination (r : CompletionRule) : Option Redirect :=
  match r.page with
  | some p => some (.toPage p)
  | none =>
    if r.flask_method != "" then some (.toFlaskMethod r.flask_method)
    else if r.url != "" then some (.toUrl r.url)
    else none

/-- The when_complete resolution loop of validate_and_redirect (models.py
lines 731-762): rules are scanned in declaration order, the first matching
rule with a destination redirects, and exhausting the list raises. -/
def resolveWhenComplete (form_data : AnswerMap) :
    List CompletionRule → Except String Redirect
  | [] => .error "No matching completion rule found"
  | r :: rest =>
    if ruleMatches form_data r then
      match ruleDestination r with
      | some d => .ok d
      | none => resolveWhenComplete form_data rest
    else resolveWhenComplete form_data rest

/-! Concrete flows, pages and sessions used to evaluate the source at the
scenarios of the claims. -/

/-- A page whose bound schema rejects every stored answer set, so it is
never shallow-complete. -/
def pageCc1 : Page :=
  .mk "c" false (some (fun _ => false)) false [] [] none []

/-- A plain page (no schema, so shallow-complete) whose OR-set holds only
the never-complete page and has no fallback: its deep check fails,
answering the page itself. -/
def pageAc1 : Page :=
  .mk "a" false none false [] [pageCc1] none []

/-- A plain page whose deep check passes. -/
def pageBc1 : Page :=
  .mk "b" false none false [] [] none []

/-- The scenario page of claim C1: requires_completion_of_any = [a, b],
both shallow-complete, a failing its deep check, b passing, with no other
requirements. -/
def pagePc1 : Page :=
  .mk "p" false none false [] [pageAc1, pageBc1] none []

/-- A flow whose final page is the C1 scenario page. -/
def flowC1 : FormFlow :=
  ⟨"flow1", [("p", pagePc1), ("a", pageAc1), ("b", pageBc1), ("c", pageCc1)],
    "p", "p", [], none, none⟩

/-- A plain page referenced by a requires_responses rule. -/
def pageQ : Page :=
  .mk "q" false none false [] [] none []

/-- The scenario page of claim C2: its only requirement is the response
rule (q, food, pizza). -/
def pageP2 : Page :=
  .mk "p2" false none false [] [] none [(pageQ, "food", "pizza")]

/-- A flow whose final page is the C2 scenario page. -/
def flowC2 : FormFlow :=
  ⟨"flow2", [("p2", pageP2), ("q", pageQ)], "p2", "p2", [], none, none⟩

/-- A session in which page q stored the answer food := chocolate, which
differs from the expected pizza. -/
def sC2 : Session :=
  ⟨[("q", [("food", "chocolate")])], none, [], []⟩

/-- A trivially complete final page (no form, no requirements). -/
def pageDone : Page :=
  .mk "done" false none false [] [] none []

/-- A flow with a complete path and zero configured result handlers. -/
def flow0 : FormFlow :=
  ⟨"noop", [("done", pageDone)], "done", "done", [], none, none⟩

/-- A successful previously recorded completion result. -/
def resultOk : ResultHandlerResult :=
  ⟨"email", true, [("id", "abc123")]⟩

/-- A session that already records a fully successful completion. -/
def sHandled : Session :=
  ⟨[], none, [resultOk], []⟩

/-- A page with a bound live form whose schema rejects everything, making
any flow ending in it have an incomplete path. -/
def pageGate : Page :=
  .mk "gate" true (some (fun _ => false)) false [] [] none []

/-- A flow without a complete path. -/
def flowGate : FormFlow :=
  ⟨"gated", [("gate", pageGate)], "gate", "gate", [], none, none⟩

/-- The gated flow after get_earliest_incomplete_page memoised its failing
page. -/
def flowGateMemo : FormFlow :=
  { flowGate with earliest_incomplete_page := some pageGate }

/-- A configured email handler whose send returns False. -/
def failingHandler : ResultHandlerSpec :=
  ⟨"email", true, .sendReturns false []⟩

/-- A flow with a complete path and one failing result handler. -/
def flowRetry : FormFlow :=
  ⟨"retry", [("done", pageDone)], "done", "done", [], some [failingHandler], none⟩

/-- The completion result recorded for the failing handler. -/
def failEntry : ResultHandlerResult :=
  ⟨"email", false, []⟩

/-- The session after the failing handler ran once. -/
def sAfterFail : Session :=
  ⟨[], none, [failEntry], []⟩

/-- A configured email handler whose send succeeds. -/
def okHandler : ResultHandlerSpec :=
  ⟨"email", true, .sendReturns true [("id", "ok1")]⟩

/-- A flow with a complete path and one succeeding result handler. -/
def flowOnce : FormFlow :=
  ⟨"once", [("done", pageDone)], "done", "done", [], some [okHandler], none⟩

/-- The completion result recorded for the succeeding handler. -/
def okEntry : ResultHandlerResult :=
  ⟨"email", true, [("id", "ok1")]⟩

/-- The session after the succeeding handler ran once. -/
def sAfterOk : Session :=
  ⟨[], none, [okEntry], []⟩

/-- Submitted answers used by the redirect-resolution witnesses. -/
def fdW : AnswerMap :=
  [("food", "chocolate")]

/-- Rule 1 of the C6 scenario: guarded on food = pizza, which the
submitted answers do not satisfy. -/
def ruleW1 : CompletionRule :=
  ⟨none, "", "", some ("food", "pizza"), none⟩

/-- Rule 2 of the C6 scenario: unconditional, redirecting to a url. -/
def ruleW2 : CompletionRule :=
  ⟨none, "https://example.net/done", "", none, none⟩

/-- Rule 3 of the C6 scenario: a predicate rule that would also match. -/
def ruleW3 : CompletionRule :=
  ⟨none, "", "", none, some (fun _ => true)⟩

/-- A conditional rule whose guard the C7 witness answers fail. -/
def ruleW4 : CompletionRule :=
  ⟨none, "https://example.net/alt", "", some ("food", "pizza"), none⟩

/-- An altcha-gated page whose bound schema accepts its stored answers. -/
def pageCaptcha : Page :=
  .mk "contact" false (some (fun _ => true)) true [] [] none []

/-- An empty application cache. -/
def cache0 : AppCache :=
  ⟨[]⟩

/-- A session holding answers for two pages under an old fingerprint. -/
def sOld : Session :=
  ⟨[("a", [("x", "1")]), ("b", [("y", "2")])], some "oldhash", [], []⟩

/-- A page stored in the mapping under the literal id startingPage. -/
def pageLiteral : Page :=
  .mk "startingPage" false none false [] [] none []

/-- A second page, the configured starting and final page of the C10
witness flow. -/
def pageOther : Page :=
  .mk "other" false none false [] [] none []

/-- A flow holding a page under the literal id startingPage while its
configured starting and final page is a different page. -/
def flowLiteral : FormFlow :=
  ⟨"lit", [("startingPage", pageLiteral), ("other", pageOther)],
    "other", "other", [], none, none⟩

/-! Theorems. -/

/-- Claim C1: on a page P with requires_completion_of_any = [A, B], both
shallow-complete, A failing its deep check, B passing, and no other
requirement on P, the claim says the completion evaluator returns A as the
failing page.  Evaluating the source at exactly this scenario shows the
premises hold (third and fourth conjuncts) yet get_earliest_incomplete_page
answers None: the loop does record A as the last failing OR-candidate and
falls through to the requires_responses check, but the guard written as
return-when-None drops the recorded failure and the final return None
discards it, so the flow counts as complete. -/
theorem or_candidate_failure_discarded :
    shallowComplete Session.empty pageAc1 = true
    ∧ shallowComplete Session.empty pageBc1 = true
    ∧ deepCompletionCheck Session.empty pageAc1 = .ok (some pageAc1)
    ∧ deepCompletionCheck Session.empty pageBc1 = .ok none
    ∧ get_earliest_incomplete_page Session.empty flowC1 = .ok (none, flowC1) :=
  ⟨rfl, rfl, rfl, rfl, rfl⟩

/-- Claim C2: on a page whose AND and OR requirement sets are empty and
whose first requires_responses triple (q, food, pizza) is violated by the
stored answer food := chocolate, the claim says the deep completion check
returns q immediately.  Evaluating the source shows the mismatch is
present (first conjunct) yet get_earliest_incomplete_page answers None:
with an empty OR-set no OR-candidate failure is ever recorded, and the
evaluator returns None at the is-None guard before the requires_responses
loop can run. -/
theorem requires_responses_never_reached :
    getAnswer (getSavedFormData sC2 "q") "food" = some "chocolate"
    ∧ pageP2.requires_responses = [(pageQ, "food", "pizza")]
    ∧ get_earliest_incomplete_page sC2 flowC2 = .ok (none, flowC2) :=
  ⟨rfl, rfl, rfl⟩

/-- Helper: the dispatch path of handle_completion.  When completion is
not already handled, the path is complete and the handler loop yields the
result list, handle_completion stores that list in the session and
returns the conjunction of the recorded success flags, with one send
invocation counted per handler that reached send. -/
theorem handle_completion_run_eq (s : Session) (f f2 : FormFlow)
    (results : List ResultHandlerResult) (n : Nat)
    (hnot : is_completion_handled s = false)
    (hpath : has_complete_path s f = .ok (true, f2))
    (hrun : runResultHandlersOpt f2.result_handlers_config = .ok (results, n)) :
    handle_completion s f =
      .ok (results.all (fun r => r.success),
        { s with completion_results := results }, f2, n) := by
  unfold handle_completion
  rw [hnot, hpath]
  simp [hrun]

/-- Claim C3 (amended): with a complete path and completion not already
handled, handle_completion runs the dispatch, persists the per-handler
result list, and returns the AND of the configured handlers' success
flags — which for zero configured handlers is the empty conjunction,
hence True, not the False the claim states. -/
theorem handle_completion_returns_and_of_successes (s : Session) (f f2 : FormFlow)
    (results : List ResultHandlerResult) (n : Nat)
    (hnot : is_completion_handled s = false)
    (hpath : has_complete_path s f = .ok (true, f2))
    (hrun : runResultHandlersOpt f2.result_handlers_config = .ok (results, n)) :
    handle_completion s f =
      .ok (results.all (fun r => r.success),
        { s with completion_results := results }, f2, n) :=
  handle_completion_run_eq s f f2 results n hnot hpath hrun

/-- Claim C3 witness: a flow with a complete path, completion not yet
handled and no configured handlers, evaluated through the theorem. -/
theorem handle_completion_returns_and_of_successes_witness :
    handle_completion Session.empty flow0 =
      .ok (true, { Session.empty with completion_results := [] }, flow0, 0) :=
  handle_completion_returns_and_of_successes Session.empty flow0 flow0 [] 0 rfl rfl rfl

/-- Claim C3 counterexample: a flow with a complete path, completion not
handled and zero configured result handlers returns True, not the
vacuously False the claim states. -/
theorem zero_handlers_completion_returns_true :
    is_completion_handled Session.empty = false
    ∧ has_complete_path Session.empty flow0 = .ok (true, flow0)
    ∧ flow0.result_handlers_config = none
    ∧ handle_completion Session.empty flow0 = .ok (true, Session.empty, flow0, 0)
    ∧ (handle_completion Session.empty flow0).map (fun r => r.1) ≠ .ok false := by
  refine ⟨rfl, rfl, rfl, rfl, ?_⟩
  intro h
  rw [show (handle_completion Session.empty flow0).map (fun r => r.1) = Except.ok true
    from rfl] at h
  injection h with h2
  exact Bool.noConfusion h2

/-- Claim C4 (amended): handle_completion raises on an incomplete path
only when completion is not already handled; the already-handled guard
runs first. -/
theorem handle_completion_unhandled_incomplete_raises (s : Session) (f f2 : FormFlow)
    (hnot : is_completion_handled s = false)
    (hpath : has_complete_path s f = .ok (false, f2)) :
    handle_completion s f = .error "Flow does not have a complete path" := by
  unfold handle_completion
  rw [hnot, hpath]
  simp

/-- Claim C4 witness: a fresh session on a flow without a complete path,
evaluated through the theorem. -/
theorem handle_completion_unhandled_incomplete_raises_witness :
    handle_completion Session.empty flowGate = .error "Flow does not have a complete path" :=
  handle_completion_unhandled_incomplete_raises Session.empty flowGate flowGateMemo rfl rfl

/-- Claim C4 counterexample: in a state whose recorded completion results
are all successful, handle_completion on a flow without a complete path
returns True instead of raising, because the already-handled guard returns
before the path check (second conjunct shows the path really is
incomplete in this state). -/
theorem handled_flow_skips_path_check :
    is_completion_handled sHandled = true
    ∧ has_complete_path sHandled flowGate = .ok (false, flowGateMemo)
    ∧ handle_completion sHandled flowGate = .ok (true, sHandled, flowGate, 0) :=
  ⟨rfl, rfl, rfl⟩

/-- Claim C5 (amended): when the first handle_completion call succeeds
(every handler's send returned True, with at least one handler recorded),
a second call returns early through the already-handled guard with zero
send invocations, so each handler's send ran exactly once in total.  When
a handler fails, the recorded results do not count as handled and a second
call re-runs the handlers (see the counterexample). -/
theorem handle_completion_at_most_once_on_success (s : Session) (f f2 : FormFlow)
    (results : List ResultHandlerResult) (n : Nat)
    (hnot : is_completion_handled s = false)
    (hpath : has_complete_path s f = .ok (true, f2))
    (hrun : runResultHandlersOpt f2.result_handlers_config = .ok (results, n))
    (hne : results ≠ [])
    (hsucc : results.all (fun r => r.success) = true) :
    handle_completion s f =
      .ok (true, { s with completion_results := results }, f2, n)
    ∧ handle_completion { s with completion_results := results } f =
      .ok (true, { s with completion_results := results }, f, 0) := by
  constructor
  · rw [handle_completion_run_eq s f f2 results n hnot hpath hrun, hsucc]
  · have hhandled : is_completion_handled { s with completion_results := results } = true := by
      unfold is_completion_handled get_completion_results
      simp only
      rw [if_pos]
      · exact hsucc
      · simp [hne]
    unfold handle_completion
    rw [hhandled]
    simp

/-- Claim C5 witness: one succeeding email handler, two successive calls,
one send in the first call and none in the second, evaluated through the
theorem. -/
theorem handle_completion_at_most_once_on_success_witness :
    handle_completion Session.empty flowOnce = .ok (true, sAfterOk, flowOnce, 1)
    ∧ handle_completion sAfterOk flowOnce = .ok (true, sAfterOk, flowOnce, 0) :=
  handle_completion_at_most_once_on_success Session.empty flowOnce flowOnce [okEntry] 1
    rfl rfl rfl (by simp) rfl

/-- Claim C5 counterexample: with one configured handler whose send
returns False, both of two successive handle_completion calls invoke send
(one send invocation reported by each call, two in total), because a
failed result list does not mark completion as handled. -/
theorem failed_handler_send_reruns :
    handle_completion Session.empty flowRetry = .ok (false, sAfterFail, flowRetry, 1)
    ∧ handle_completion sAfterFail flowRetry = .ok (false, sAfterFail, flowRetry, 1) :=
  ⟨rfl, rfl⟩

/-- Claim C6: redirect rules are evaluated in declaration order; any
prefix of non-matching rules is skipped, an unconditional rule (no when
pair, no predicate) always matches, its destination is returned, and the
rules after it — universally quantified here, so never consulted — cannot
change the result. -/
theorem when_complete_first_match (form_data : AnswerMap)
    (pre post : List CompletionRule) (r : CompletionRule) (d : Redirect)
    (hpre : ∀ x ∈ pre, ruleMatches form_data x = false)
    (hwhen : r.whenGuard = none) (hcond : r.condition = none)
    (hd : ruleDestination r = some d) :
    resolveWhenComplete form_data (pre ++ r :: post) = .ok d := by
  induction pre with
  | nil =>
    have hm : ruleMatches form_data r = true := by
      unfold ruleMatches
      rw [hwhen, hcond]
      simp
    simp [resolveWhenComplete, hm, hd]
  | cons x xs ih =>
    have hx := hpre x (by simp)
    simp only [List.cons_append, resolveWhenComplete, hx, Bool.false_eq_true, if_false]
    exact ih (fun y hy => hpre y (by simp [hy]))

/-- Claim C6 witness: rule 1 guarded on food = pizza against submitted
food = chocolate, rule 2 unconditional with a url destination, rule 3 a
predicate rule that would also match; resolution picks rule 2, applied
through the theorem with rule 3 as the arbitrary tail. -/
theorem when_complete_first_match_witness :
    resolveWhenComplete fdW [ruleW1, ruleW2, ruleW3] = .ok (.toUrl "https://example.net/done") :=
  when_complete_first_match fdW [ruleW1] [ruleW3] ruleW2 (.toUrl "https://example.net/done")
    (by intro x hx; rw [List.mem_singleton.mp hx]; rfl) rfl rfl rfl

/-- Claim C7: when the when_complete list is non-empty and no rule matches
the submitted answers, resolution raises the no-matching-rule exception
rather than producing a redirect. -/
theorem when_complete_no_match_raises (form_data : AnswerMap)
    (rules : List CompletionRule) (_hne : rules ≠ [])
    (hall : ∀ x ∈ rules, ruleMatches form_data x = false) :
    resolveWhenComplete form_data rules = .error "No matching completion rule found" := by
  clear _hne
  induction rules with
  | nil => rfl
  | cons x xs ih =>
    have hx := hall x (by simp)
    simp only [resolveWhenComplete, hx, Bool.false_eq_true, if_false]
    exact ih (fun y hy => hall y (by simp [hy]))

/-- Claim C7 witness: a single conditional rule whose guard the submitted
answers fail, applied through the theorem. -/
theorem when_complete_no_match_raises_witness :
    resolveWhenComplete fdW [ruleW4] = .error "No matching completion rule found" :=
  when_complete_no_match_raises fdW [ruleW4] (by simp)
    (by intro x hx; rw [List.mem_singleton.mp hx]; rfl)

/-- Claim C8: the claim says an altcha-gated page is shallow-complete only
if the CAPTCHA was verified at least once for it.  Evaluating the source
on a non-POST request with schema-valid stored answers and no altcha flag
ever recorded (first conjunct) reports the page complete with no state
change: the session flag defaults to verified-True when absent, so a page
whose CAPTCHA was never attempted counts as complete. -/
theorem captcha_unverified_page_reports_complete :
    getAltchaFlag Session.empty "contact" = none
    ∧ pageCaptcha.altcha = true
    ∧ is_complete_temporary reqGet cache0 Session.empty pageCaptcha = (true, Session.empty, cache0)
    ∧ shallowComplete Session.empty pageCaptcha = true :=
  ⟨rfl, rfl, rfl, rfl⟩

/-- Claim C9: constructing a flow with a fingerprint differing from the
stored one clears the whole shared answer namespace (every page id of any
flow reads back an empty mapping) and stores the new fingerprint; reset
performs the same whole-namespace clear on any session. -/
theorem config_change_wipes_namespace (s : Session) (h : String)
    (hdiff : s.config_hash.getD "" ≠ h) :
    (∀ id, getSavedFormData (flowInitSession h s) id = [])
    ∧ (flowInitSession h s).config_hash = some h
    ∧ (∀ s2 : Session, ∀ id, getSavedFormData (reset s2) id = []) := by
  have hcond : (s.config_hash.getD "" != h) = true := by
    simp [bne_iff_ne, hdiff]
  refine ⟨?_, ?_, ?_⟩
  · intro id
    unfold flowInitSession
    rw [if_pos hcond]
    rfl
  · unfold flowInitSession
    rw [if_pos hcond]
  · intro s2 id
    rfl

/-- Claim C9 witness: a session holding answers for pages a and b under an
old fingerprint, re-fingerprinted, read back empty, applied through the
theorem. -/
theorem config_change_wipes_namespace_witness :
    getSavedFormData (flowInitSession "newhash" sOld) "a" = []
    ∧ getSavedFormData (flowInitSession "newhash" sOld) "b" = []
    ∧ (flowInitSession "newhash" sOld).config_hash = some "newhash"
    ∧ getSavedFormData (reset sOld) "a" = [] := by
  have h := config_change_wipes_namespace sOld "newhash" (by decide)
  exact ⟨h.1 "a", h.1 "b", h.2.1, h.2.2 sOld "a"⟩

/-- Claim C10: get_page_by_id raises ValueError on the empty id and
KeyError on a non-empty unresolved non-alias id (two distinct exception
constructors, last conjunct); the concrete page mapping is consulted
before the reserved aliases, so pages stored under the literal ids
startingPage or finalPage are returned themselves. -/
theorem get_page_by_id_contract :
    (∀ f : FormFlow, get_page_by_id f "" = .error (.valueError "Page id must be provided"))
    ∧ (∀ (f : FormFlow) (id : String), id ≠ "" → rawLookup f id = none →
        id ≠ "startingPage" → id ≠ "finalPage" →
        get_page_by_id f id = .error (.keyError "Page with id not found in flow"))
    ∧ (∀ (f : FormFlow) (p : Page), rawLookup f "startingPage" = some p →
        get_page_by_id f "startingPage" = .ok p)
    ∧ (∀ (f : FormFlow) (p : Page), rawLookup f "finalPage" = some p →
        get_page_by_id f "finalPage" = .ok p)
    ∧ (∀ m m2 : String, PageLookupError.valueError m ≠ PageLookupError.keyError m2) := by
  refine ⟨?_, ?_, ?_, ?_, ?_⟩
  · intro f; rfl
  · intro f id h1 h2 h3 h4
    unfold get_page_by_id
    rw [if_neg h1, h2]
    rw [if_neg h3, if_neg h4]
  · intro f p hp
    unfold get_page_by_id
    rw [if_neg (by decide), hp]
  · intro f p hp
    unfold get_page_by_id
    rw [if_neg (by decide), hp]
  · intro m m2 hcontra
    cases hcontra

/-- Claim C10 witness: a flow storing a page under the literal id
startingPage while configured with a different starting page; the empty
id, an unknown id and the literal id, applied through the theorem. -/
theorem get_page_by_id_contract_witness :
    get_page_by_id flowLiteral "" = .error (.valueError "Page id must be provided")
    ∧ get_page_by_id flowLiteral "zzz" = .error (.keyError "Page with id not found in flow")
    ∧ get_page_by_id flowLiteral "startingPage" = .ok pageLiteral := by
  refine ⟨get_page_by_id_contract.1 flowLiteral, ?_, ?_⟩
  · exact get_page_by_id_contract.2.1 flowLiteral "zzz" (by decide) rfl (by decide) (by decide)
  · exact get_page_by_id_contract.2.2.1 flowLiteral pageLiteral rfl

end DsForms
